import Mathlib

/-!
Verification of the AxI_calendar persistence layer (single-table DynamoDB design).

The definitions below are a shallow embedding of the Go source:
* key derivation helpers from `internal/adapter/persistence/dynamodb/repository.go`
  (`userPK`, `entrySK`, `entryDateSKPrefix` — rendered here as `entryDateSKPfx` —,
  `userGSI1PK`, `entryGSI1SK`, `themePK`, `themeMetadataSK`, `userThemeLinkSK`);
* the entry repository (`GetEntryByID`, `ListEntriesByDateRange`,
  `GetEntriesForSummary`, `CreateEntry`, `UpdateEntry`, `updateItem`,
  `deleteAndPutItemTransaction`) from the `dynamodbrepo` package;
* the theme repositories: the `dynamodbrepo` one (`GetThemeByID`, `CreateTheme`,
  `UpdateTheme`, `DeleteTheme`) and the legacy `repository`-package `CreateTheme`.

DynamoDB itself is modelled as a list of items keyed by (PK, SK), with
conditional writes, an ordered secondary index GSI1 whose keys are compared
byte-lexicographically (UTF-8 byte order agrees with code-point order, so we
compare `List Char` lexicographically), and an all-or-nothing transaction
primitive that reports per-item cancellation reasons.

UUIDs are modelled as `String` with `""` standing for `uuid.Nil`; times are
modelled as `Nat` with `0` standing for the zero `time.Time`.  Go errors are
modelled by an inductive type in which each `errors.New` allocation site is a
distinct constructor, so that `errors.Is` (identity of allocation, through
`fmt.Errorf %w` wrapping) is faithfully decidable.
-/

namespace AxiCalendar

/-! ## Key derivation (adapter/persistence/dynamodb/repository.go) -/

/-- Go `userPK`: PK for a user's items, `USER#<user_id>`. -/
def userPK (userID : String) : String := "USER#" ++ userID

/-- Go `entrySK`: SK for an entry item, `ENTRY#<date>#<entry_id>`. -/
def entrySK (date : String) (entryID : String) : String :=
  "ENTRY#" ++ date ++ "#" ++ entryID

/-- Go `entryDateSKPrefix`: leading part of GSI1 sort keys, `ENTRY_DATE#<date>`. -/
def entryDateSKPfx (date : String) : String := "ENTRY_DATE#" ++ date

/-- Go `userGSI1PK`: GSI1 partition key for an entry item (same as `userPK`). -/
def userGSI1PK (userID : String) : String := userPK userID

/-- Go `entryGSI1SK`: GSI1 sort key, `ENTRY_DATE#<date>#<theme_id>`. -/
def entryGSI1SK (date : String) (themeID : String) : String :=
  entryDateSKPfx date ++ "#" ++ themeID

/-- Go `themePK`: PK for a theme metadata item, `THEME#<theme_id>`. -/
def themePK (themeID : String) : String := "THEME#" ++ themeID

/-- Go `themeMetadataSK`: constant sort key `METADATA`. -/
def themeMetadataSK : String := "METADATA"

/-- Go `userThemeLinkSK`: SK of a user-theme link item, `THEME#<theme_id>`. -/
def userThemeLinkSK (themeID : String) : String := "THEME#" ++ themeID

/-! ## Entry items and the store -/

/-- The `entry.Entry` struct (domain/entry), as persisted via `attributevalue`. -/
structure EntryItem where
  PK : String := ""
  SK : String := ""
  EntryID : String := ""
  ThemeID : String := ""
  UserID : String := ""
  EntryDate : String := ""
  Data : List (String × String) := []
  CreatedAt : Nat := 0
  UpdatedAt : Nat := 0
  GSI1PK : String := ""
  GSI1SK : String := ""
deriving Repr, DecidableEq

/-- The physical table: a set of items, keyed by (PK, SK). -/
abbrev EntryStore := List EntryItem

/-- `attribute_exists(PK) AND attribute_exists(SK)` at a given key. -/
def keyExists (store : EntryStore) (pk sk : String) : Bool :=
  store.any fun it => it.PK == pk && it.SK == sk

/-- Direct lookup by primary key. -/
def lookupKey (store : EntryStore) (pk sk : String) : Option EntryItem :=
  store.find? fun it => it.PK == pk && it.SK == sk

/-- Removal of the item (if any) stored at a primary key. -/
def eraseKey (store : EntryStore) (pk sk : String) : EntryStore :=
  store.filter fun it => !(it.PK == pk && it.SK == sk)

/-- Errors returned by the entry repository.  Each constructor corresponds to
one `errors.New`/`fmt.Errorf` site in the Go entry repository. -/
inductive EntryErr
  /-- input-validation errors (`errors.New` with the given message) -/
  | validation (msg : String)
  /-- `errors.New("entry not found")` -/
  | entryNotFound
  /-- `errors.New("entry already exists")` -/
  | entryAlreadyExists
  /-- `errors.New("entry update failed due to condition check (original not
  found or target date conflict)")` -/
  | updateCondCheckFailed
  /-- `fmt.Errorf("entry update transaction cancelled: %w", err)` -/
  | txCancelled
deriving Repr, DecidableEq

/-- Result of a conditional `PutItem` with
`attribute_not_exists(PK) AND attribute_not_exists(SK)`. -/
inductive PutResult
  | ok (s : EntryStore)
  | condFailed
deriving Repr, DecidableEq

/-- DynamoDB conditional put: succeeds only if the key is not occupied. -/
def putItemIfAbsent (store : EntryStore) (it : EntryItem) : PutResult :=
  if keyExists store it.PK it.SK then .condFailed else .ok (it :: store)

/-! ## Entry repository operations (dynamodbrepo, part_017) -/

/-- Go `CreateEntry`.  `freshID` stands for the value `uuid.New()` would
return, `now` for `time.Now()`.  Returns the mutated entry (the Go code
mutates its pointer argument in place) together with the new store. -/
def CreateEntry (freshID : String) (now : Nat) (e : EntryItem)
    (store : EntryStore) : Except EntryErr (EntryItem × EntryStore) :=
  let e := if e.EntryID == "" then { e with EntryID := freshID } else e
  if e.UserID == "" then
    .error (.validation "user ID is required to create an entry")
  else if e.EntryDate == "" then
    .error (.validation "entry date is required to create an entry")
  else
    let e := { e with CreatedAt := now, UpdatedAt := now }
    let e := { e with PK := userPK e.UserID, SK := entrySK e.EntryDate e.EntryID }
    let e := { e with GSI1PK := e.PK, GSI1SK := entryGSI1SK e.EntryDate e.ThemeID }
    match putItemIfAbsent store e with
    | .condFailed => .error .entryAlreadyExists
    | .ok s => .ok (e, s)

/-- Go `GetEntryByID`: queries GSI1 by `GSI1PK = USER#<user_id>` and picks the
item whose `EntryID` equals the requested one (the code double-checks the
filter client-side). -/
def GetEntryByID (store : EntryStore) (userID entryID : String) :
    Except EntryErr EntryItem :=
  let candidates := store.filter fun it => it.GSI1PK == userGSI1PK userID
  match candidates.find? (fun it => it.EntryID == entryID) with
  | some e => .ok e
  | none => .error .entryNotFound

/-- Go `updateItem`: in-place `UpdateItem` at the key derived from
`originalDate`, `SET #data, UpdatedAt, GSI1SK, EntryDate`, conditioned on
`attribute_exists(PK) AND attribute_exists(SK)`. -/
def updateItem (now : Nat) (e : EntryItem) (originalDate : String)
    (store : EntryStore) : Except EntryErr EntryStore :=
  let pk := userPK e.UserID
  let sk := entrySK originalDate e.EntryID
  match lookupKey store pk sk with
  | none => .error .entryNotFound
  | some old =>
      let updated := { old with
        Data := e.Data
        UpdatedAt := now
        GSI1SK := entryGSI1SK e.EntryDate e.ThemeID
        EntryDate := e.EntryDate }
      .ok (store.map fun it => if it.PK == pk && it.SK == sk then updated else it)

/-- One operation of a `TransactWriteItems` request. -/
inductive TxItem
  | txDelete (pk sk : String)
  | txPut (item : EntryItem)
deriving Repr, DecidableEq

/-- Condition evaluation: the delete carries `attribute_exists(...)`, the put
carries `attribute_not_exists(...)`. -/
def txCondOK (store : EntryStore) : TxItem → Bool
  | .txDelete pk sk => keyExists store pk sk
  | .txPut it => !keyExists store it.PK it.SK

/-- Effect of one transact item on the store. -/
def applyTxItem (store : EntryStore) : TxItem → EntryStore
  | .txDelete pk sk => eraseKey store pk sk
  | .txPut it => it :: eraseKey store it.PK it.SK

/-- Outcome of `TransactWriteItems`: all-or-nothing; on cancellation one
reason code per operation (as in `TransactionCanceledException`). -/
inductive TxResult
  | ok (s : EntryStore)
  | cancelled (reasons : List String)
deriving Repr, DecidableEq

/-- DynamoDB `TransactWriteItems`: applies every operation if all conditions
hold against the current store, otherwise cancels the whole transaction and
reports `ConditionalCheckFailed` exactly for the items whose condition failed. -/
def transactWriteItems (store : EntryStore) (items : List TxItem) : TxResult :=
  if items.all (txCondOK store) then .ok (items.foldl applyTxItem store)
  else .cancelled (items.map fun it =>
    if txCondOK store it then "None" else "ConditionalCheckFailed")

/-- Go `deleteAndPutItemTransaction`: on a date change, delete the old key and
put the new key in one transaction; on `TransactionCanceledException` scan the
cancellation reasons and return a single combined error if any reason is
`ConditionalCheckFailed`. -/
def deleteAndPutItemTransaction (now : Nat) (e : EntryItem) (oldDate : String)
    (store : EntryStore) : Except EntryErr EntryStore :=
  let e := { e with UpdatedAt := now }
  let e := if e.CreatedAt == 0 then { e with CreatedAt := now } else e
  let oldPK := userPK e.UserID
  let oldSK := entrySK oldDate e.EntryID
  let e := { e with PK := userPK e.UserID, SK := entrySK e.EntryDate e.EntryID }
  let e := { e with GSI1PK := e.PK, GSI1SK := entryGSI1SK e.EntryDate e.ThemeID }
  match transactWriteItems store [.txDelete oldPK oldSK, .txPut e] with
  | .ok s => .ok s
  | .cancelled reasons =>
      if reasons.any (· == "ConditionalCheckFailed") then
        .error .updateCondCheckFailed
      else
        .error .txCancelled

/-- Go `UpdateEntry`: validates, reads the current record through
`GetEntryByID`, and dispatches on whether `EntryDate` changed. -/
def UpdateEntry (now : Nat) (e : EntryItem) (store : EntryStore) :
    Except EntryErr EntryStore :=
  if e.EntryID == "" || e.UserID == "" || e.EntryDate == "" then
    .error (.validation "entry ID, user ID, and entry date are required for update")
  else
    match GetEntryByID store e.UserID e.EntryID with
    | .error err => .error err
    | .ok existing =>
        if existing.EntryDate == e.EntryDate then
          updateItem now e existing.EntryDate store
        else
          deleteAndPutItemTransaction now e existing.EntryDate store

/-! ## GSI1 range and prefix queries (dynamodbrepo, part_017)

DynamoDB compares string sort keys byte-lexicographically on their UTF-8
encoding; for Unicode scalar values this agrees with code-point order, so we
compare the underlying `List Char` of the key lexicographically. -/

/-- Byte-lexicographic `≤` on keys (total order). -/
def keyLe : List Char → List Char → Bool
  | [], _ => true
  | _ :: _, [] => false
  | a :: as, b :: bs =>
      if a < b then true else if b < a then false else keyLe as bs

/-- `startsWithKey pfx s` is DynamoDB's `begins_with(s, pfx)`. -/
def startsWithKey : List Char → List Char → Bool
  | [], _ => true
  | _ :: _, [] => false
  | a :: as, b :: bs => a == b && startsWithKey as bs

/-- A GSI1 query with `KeyConditionExpression GSI1PK = :pkval AND GSI1SK
BETWEEN :startsk AND :endsk` and `FilterExpression ThemeID = :themeId`
(the filter is applied server-side on every matching item). -/
def queryRangeGSI1 (store : EntryStore) (pkv lo hi themeID : String) :
    List EntryItem :=
  store.filter fun it =>
    it.GSI1PK == pkv && keyLe lo.data it.GSI1SK.data &&
      keyLe it.GSI1SK.data hi.data && it.ThemeID == themeID

/-- Go `ListEntriesByDateRange`.  The Go signature takes `time.Time` bounds
and formats them with layout `2006-01-02`; since that format is monotone in
the date, the bounds are embedded directly as `YYYY-MM-DD` strings, and
`startDate.After(endDate)` becomes strict `>` on those strings. -/
def ListEntriesByDateRange (store : EntryStore)
    (userID startDate endDate themeID : String) :
    Except EntryErr (List EntryItem) :=
  let gsi1pk := userGSI1PK userID
  let startSK := entryDateSKPfx startDate
  let endSK := entryDateSKPfx endDate
  if !keyLe startDate.data endDate.data then
    .error (.validation "start date cannot be after end date")
  else if themeID == "" then
    .error (.validation "theme ID is required to filter entries")
  else
    .ok (queryRangeGSI1 store gsi1pk startSK (endSK ++ "\uFFFF") themeID)

/-- The one GSI1 prefix query `GetEntriesForSummary` can issue. -/
structure SummaryQuery where
  gsi1pk : String
  skPfx : String
  themeFilter : String
deriving Repr, DecidableEq

/-- Execution of a summary prefix query against the store. -/
def runSummaryQuery (store : EntryStore) (q : SummaryQuery) : List EntryItem :=
  store.filter fun it =>
    it.GSI1PK == q.gsi1pk && startsWithKey q.skPfx.data it.GSI1SK.data &&
      it.ThemeID == q.themeFilter

/-- Go `GetEntriesForSummary`: validates `themeID` and the `YYYY-MM` shape of
`yearMonth` (`len == 7 && yearMonth[4] == '-'`) before querying; also returns
the list of queries actually issued against the store. -/
def GetEntriesForSummary (store : EntryStore)
    (userID themeID yearMonth : String) :
    Except EntryErr (List EntryItem) × List SummaryQuery :=
  if themeID == "" then
    (.error (.validation "theme ID is required to filter entries"), [])
  else if !(yearMonth.data.length == 7) || !(yearMonth.data.get? 4 == some '-') then
    (.error (.validation "invalid yearMonth format, expected YYYY-MM"), [])
  else
    let q : SummaryQuery := ⟨userGSI1PK userID, entryDateSKPfx yearMonth, themeID⟩
    (.ok (runSummaryQuery store q), [q])

/-! ## Go error identity (domain/errors.go and local `errors.New` sites)

`errors.Is(err, target)` in Go compares error *identities* (unwrapping
`fmt.Errorf("...%w")` chains); two distinct `errors.New` calls are never
`Is`-equal even when their messages coincide.  Each constructor below is one
allocation site. -/

inductive GoError
  /-- `domain.ErrNotFound = errors.New("item not found")` -/
  | domainNotFound
  /-- `domain.ErrForbidden = errors.New("forbidden")` -/
  | domainForbidden
  /-- `errors.New("theme not found")` allocated inside `GetThemeByID` -/
  | themeNotFoundLocal
  /-- `errors.New("forbidden")` allocated inside `GetThemeByID` -/
  | forbiddenLocal
  /-- `errors.New("cannot delete default theme")` inside `DeleteTheme` -/
  | cannotDeleteDefaultLocal
  /-- a `ConditionalCheckFailedException` from the store -/
  | condCheckFailedExc
  /-- an infrastructure error from the store client -/
  | storeErr
  /-- input-validation `errors.New` with the given message -/
  | validationErr (msg : String)
  /-- `fmt.Errorf(msg+": %w", inner)` -/
  | wrapped (msg : String) (inner : GoError)
deriving Repr, DecidableEq

/-- Go `errors.Is` for this error universe: identity, through `%w` chains.
(The `==` on non-wrapped constructors is allocation identity: every sentinel
and every local `errors.New` site is its own constructor.) -/
def errorsIs : GoError → GoError → Bool
  | .wrapped _ inner, target => errorsIs inner target
  | e, target => e == target

/-! ## Theme items and the theme repository (dynamodbrepo) -/

/-- One field of a theme schema (`theme.ThemeField`); the Go field `Type` is
rendered `FType` because `Type` is a Lean keyword. -/
structure ThemeField where
  Name : String := ""
  Label : String := ""
  FType : String := ""
  Required : Bool := false
deriving Repr, DecidableEq

/-- The `theme.Theme` struct as persisted (metadata item). -/
structure ThemeItem where
  PK : String := ""
  SK : String := ""
  ThemeID : String := ""
  ThemeName : String := ""
  Fields : List ThemeField := []
  IsDefault : Bool := false
  OwnerUserID : Option String := none
  SupportedFeatures : List String := []
  CreatedAt : Nat := 0
  UpdatedAt : Nat := 0
deriving Repr, DecidableEq

/-- The table as seen by the theme repository. -/
abbrev ThemeStore := List ThemeItem

/-- Lookup by primary key. -/
def themeLookup (store : ThemeStore) (pk sk : String) : Option ThemeItem :=
  store.find? fun t => t.PK == pk && t.SK == sk

/-- Removal of the item (if any) at a primary key. -/
def themeErase (store : ThemeStore) (pk sk : String) : ThemeStore :=
  store.filter fun t => !(t.PK == pk && t.SK == sk)

/-- Go `GetThemeByID` (dynamodbrepo): reads `THEME#<id>`/`METADATA`, then the
access check: non-default themes are visible only to their owner.  Note the
error values are freshly allocated (`themeNotFoundLocal`, `forbiddenLocal`),
not the `domain` sentinels. -/
def GetThemeByID (store : ThemeStore) (userID themeID : String) :
    Except GoError ThemeItem :=
  match themeLookup store ("THEME#" ++ themeID) "METADATA" with
  | none => .error .themeNotFoundLocal
  | some t =>
      if !t.IsDefault then
        if t.OwnerUserID == none || !(t.OwnerUserID == some userID) then
          .error .forbiddenLocal
        else .ok t
      else .ok t

/-- The `ConditionExpression` of the metadata update in `UpdateTheme`:
`attribute_exists(PK) AND attribute_exists(SK) AND IsDefault = :false AND
OwnerUserID = :userId` (existence is checked by the lookup; a `none` owner
attribute never equals the caller's id). -/
def updateThemeCondOK (old : ThemeItem) (caller : Option String) : Bool :=
  !old.IsDefault && old.OwnerUserID == caller

/-- Go `UpdateTheme` (dynamodbrepo): conditional `SET ThemeName, Fields,
UpdatedAt, SupportedFeatures` on the metadata item; on a conditional-check
failure a follow-up `GetThemeByID` is consulted through `errors.Is` against
the `domain` sentinels; afterwards a best-effort `ThemeName` propagation to
the link item (its failure only logged). -/
def UpdateTheme (now : Nat) (th : ThemeItem) (store : ThemeStore) :
    Except GoError ThemeStore :=
  if th.ThemeID == "" || th.OwnerUserID == none || th.OwnerUserID == some "" then
    .error (.validationErr "theme ID and owner user ID are required for update")
  else
    let pk := themePK th.ThemeID
    let sk := themeMetadataSK
    match themeLookup store pk sk with
    | some old =>
        if updateThemeCondOK old th.OwnerUserID then
          let updated := { old with
            ThemeName := th.ThemeName
            Fields := th.Fields
            SupportedFeatures := th.SupportedFeatures
            UpdatedAt := now }
          let store1 := store.map fun t =>
            if t.PK == pk && t.SK == sk then updated else t
          -- best-effort link rename (conditioned on the link existing;
          -- failure is logged, never escalated)
          let linkPK := userPK (th.OwnerUserID.getD "")
          let linkSK := userThemeLinkSK th.ThemeID
          let store2 := store1.map fun t =>
            if t.PK == linkPK && t.SK == linkSK then
              { t with ThemeName := th.ThemeName } else t
          .ok store2
        else
          -- ConditionalCheckFailedException: follow-up read to classify
          match GetThemeByID store (th.OwnerUserID.getD "") th.ThemeID with
          | .error ge =>
              if errorsIs ge .domainNotFound then .error .domainNotFound
              else if errorsIs ge .domainForbidden then .error .domainForbidden
              else .error (.wrapped
                "failed to update theme metadata (and failed to check existence/ownership)"
                .condCheckFailedExc)
          | .ok _ =>
              .error (.wrapped
                "failed to update theme metadata due to condition check failure, but ownership/existence check passed"
                .condCheckFailedExc)
    | none =>
        match GetThemeByID store (th.OwnerUserID.getD "") th.ThemeID with
        | .error ge =>
            if errorsIs ge .domainNotFound then .error .domainNotFound
            else if errorsIs ge .domainForbidden then .error .domainForbidden
            else .error (.wrapped
              "failed to update theme metadata (and failed to check existence/ownership)"
              .condCheckFailedExc)
        | .ok _ =>
            .error (.wrapped
              "failed to update theme metadata due to condition check failure, but ownership/existence check passed"
              .condCheckFailedExc)

/-- Go `DeleteTheme` (dynamodbrepo): read+authorize via `GetThemeByID`
(classified through `errors.Is` against the `domain` sentinels), refuse
default themes with a distinct error, then delete metadata and (best-effort)
the link item.  Returns the result, the resulting store, and the list of
`DeleteItem` keys actually issued. -/
def DeleteTheme (store : ThemeStore) (userID themeID : String) :
    Except GoError Unit × ThemeStore × List (String × String) :=
  if userID == "" || themeID == "" then
    (.error (.validationErr "user ID and theme ID are required for delete"), store, [])
  else
    match GetThemeByID store userID themeID with
    | .error e =>
        if errorsIs e .domainNotFound then (.error .domainNotFound, store, [])
        else if errorsIs e .domainForbidden then (.error .domainForbidden, store, [])
        else (.error (.wrapped "failed to get theme for deletion check" e), store, [])
    | .ok t =>
        if t.IsDefault then (.error .cannotDeleteDefaultLocal, store, [])
        else
          let metaPK := themePK themeID
          let metaSK := themeMetadataSK
          let linkPK := userPK userID
          let linkSK := userThemeLinkSK themeID
          let store1 := themeErase store metaPK metaSK
          let store2 := themeErase store1 linkPK linkSK
          (.ok (), store2, [(metaPK, metaSK), (linkPK, linkSK)])

/-! ## Theme creation: dual write with (or without) compensation

The unconditioned `PutItem`/`DeleteItem` calls in `CreateTheme` can only fail
for infrastructure reasons, so those outcomes are environment inputs. -/

/-- Outcome of one unconditioned store call. -/
inductive CallOutcome
  | ok
  | fail
deriving Repr, DecidableEq

/-- Environment for a `CreateTheme` run: the outcome of the metadata put, of
the link put, and of the compensating metadata delete (if reached). -/
structure CreateThemeEnv where
  metaPut : CallOutcome
  linkPut : CallOutcome
  rollbackDelete : CallOutcome
deriving Repr, DecidableEq

/-- A write issued by `CreateTheme`, with its target key. -/
inductive ThemeWriteOp
  | putMeta (pk sk : String)
  | putLink (pk sk : String)
  | deleteMeta (pk sk : String)
deriving Repr, DecidableEq

/-- Go `CreateTheme` (dynamodbrepo/theme_repository.go): write the metadata
item, then the ownership-link item; on link failure attempt a compensating
delete of the metadata (whose own failure is only logged).  Returns the
result and the store calls issued, in order. -/
def CreateTheme (env : CreateThemeEnv) (freshID : String) (th : ThemeItem) :
    Except GoError Unit × List ThemeWriteOp :=
  let th := if th.ThemeID == "" then { th with ThemeID := freshID } else th
  if th.OwnerUserID == none || th.OwnerUserID == some "" then
    (.error (.validationErr "owner user ID is required to create a theme"), [])
  else
    let metaPK := themePK th.ThemeID
    let metaSK := themeMetadataSK
    let linkPK := userPK (th.OwnerUserID.getD "")
    let linkSK := userThemeLinkSK th.ThemeID
    match env.metaPut with
    | .fail =>
        (.error (.wrapped "failed to create theme metadata" .storeErr),
         [.putMeta metaPK metaSK])
    | .ok =>
        match env.linkPut with
        | .fail =>
            -- rollback attempted whatever its own outcome; the returned
            -- error is the link-write error in both cases
            (.error (.wrapped "failed to create user-theme link" .storeErr),
             [.putMeta metaPK metaSK, .putLink linkPK linkSK,
              .deleteMeta metaPK metaSK])
        | .ok =>
            (.ok (), [.putMeta metaPK metaSK, .putLink linkPK linkSK])

/-- Legacy `CreateTheme` (internal/repository/theme_repository.go, package
`repository`): same dual write, but on link failure it returns the error
directly — no compensating delete of the metadata item. -/
def LegacyCreateTheme (env : CreateThemeEnv) (freshID : String)
    (th : ThemeItem) : Except GoError Unit × List ThemeWriteOp :=
  let th := if th.ThemeID == "" then { th with ThemeID := freshID } else th
  if th.OwnerUserID == none || th.OwnerUserID == some "" then
    (.error (.validationErr "user ID is required to create a theme"), [])
  else
    let metaPK := themePK th.ThemeID
    let metaSK := themeMetadataSK
    let linkPK := userPK (th.OwnerUserID.getD "")
    let linkSK := userThemeLinkSK th.ThemeID
    match env.metaPut with
    | .fail =>
        (.error (.wrapped "failed to create theme metadata" .storeErr),
         [.putMeta metaPK metaSK])
    | .ok =>
        match env.linkPut with
        | .fail =>
            (.error (.wrapped "failed to create user-theme link" .storeErr),
             [.putMeta metaPK metaSK, .putLink linkPK linkSK])
        | .ok =>
            (.ok (), [.putMeta metaPK metaSK, .putLink linkPK linkSK])

/-! ## Helper lemmas on strings and the key order -/

theorem strData_append (s t : String) : (s ++ t).data = s.data ++ t.data := rfl

theorem keyLe_append_left (p a b : List Char) :
    keyLe (p ++ a) (p ++ b) = keyLe a b := by
  induction p with
  | nil => rfl
  | cons c p ih => simp [keyLe, lt_self_iff_false, ih]

theorem keyLe_append_right (as : List Char) :
    ∀ bs r : List Char, as.length = bs.length → keyLe as (bs ++ r) = keyLe as bs := by
  induction as with
  | nil =>
      intro bs r h
      cases bs with
      | nil => rfl
      | cons b bs => simp at h
  | cons a as ih =>
      intro bs r h
      cases bs with
      | nil => simp at h
      | cons b bs =>
          simp only [List.cons_append, keyLe, List.append_eq]
          rw [ih bs r (by simpa using h)]

theorem keyLe_append_snoc (as : List Char) :
    ∀ bs r : List Char, ∀ c : Char, as.length = bs.length → keyLe r [c] = true →
      keyLe (as ++ r) (bs ++ [c]) = keyLe as bs := by
  induction as with
  | nil =>
      intro bs r c h hr
      cases bs with
      | nil => simpa [keyLe] using hr
      | cons b bs => simp at h
  | cons a as ih =>
      intro bs r c h hr
      cases bs with
      | nil => simp at h
      | cons b bs =>
          simp only [List.cons_append, keyLe, List.append_eq]
          rw [ih bs r c (by simpa using h) hr]

theorem userPK_inj (a b : String) : userPK a = userPK b ↔ a = b := by
  constructor
  · intro h
    have hd : ("USER#" : String).data ++ a.data = ("USER#" : String).data ++ b.data := by
      have := congrArg String.data h
      simpa [userPK, strData_append] using this
    exact congrArg String.mk (List.append_cancel_left hd)
  · intro h; rw [h]

theorem userGSI1PK_beq (a b : String) :
    (userGSI1PK a == userGSI1PK b) = (a == b) := by
  by_cases h : a = b
  · subst h; simp
  · have h1 : ¬ userGSI1PK a = userGSI1PK b := by
      simpa [userGSI1PK, userPK_inj] using h
    simp [h, h1]

/-! ## C5: physical key formats -/

/-- C5 (counterexample): the ownership-link and entry partition key is
`USER#<UserID>`, not `OWNER#<OwnerID>` as the claim states: at owner `u1` the
derived partition key differs from the claimed byte format. -/
theorem C5_counterexample : userPK "u1" ≠ "OWNER#" ++ "u1" := by decide

/-- C5 (amended): for every non-empty identifier, the ownership-link item has
partition key `USER#<UserID>` and sort key `THEME#<ThemeID>`, and the entry
item has partition key `USER#<UserID>` and sort key
`ENTRY#<EntryDate>#<EntryID>`. -/
theorem C5_key_formats (userID themeID date entryID : String)
    (_hu : userID ≠ "") (_ht : themeID ≠ "") (_hd : date ≠ "") (_he : entryID ≠ "") :
    userPK userID = "USER#" ++ userID ∧
    userThemeLinkSK themeID = "THEME#" ++ themeID ∧
    entrySK date entryID = "ENTRY#" ++ date ++ "#" ++ entryID := by
  exact ⟨rfl, rfl, rfl⟩

/-- Witness for `C5_key_formats` at concrete identifiers. -/
theorem C5_key_formats_witness :
    userPK "u1" = "USER#" ++ "u1" ∧
    userThemeLinkSK "t1" = "THEME#" ++ "t1" ∧
    entrySK "2024-01-10" "e1" = "ENTRY#" ++ "2024-01-10" ++ "#" ++ "e1" :=
  C5_key_formats "u1" "t1" "2024-01-10" "e1" (by decide) (by decide) (by decide)
    (by decide)

/-! ## C10: GetEntriesForSummary validation -/

/-- C10: `GetEntriesForSummary` errors without issuing any store query when
`themeID` is nil or `yearMonth` is not exactly 7 characters with `-` at index
4; every 7-character string whose fifth character is `-` is accepted as the
sort-key prefix `ENTRY_DATE#<yearMonth>` (no digit validation). -/
theorem C10_summary_validation (store : EntryStore)
    (userID themeID yearMonth : String) :
    (themeID = "" →
      GetEntriesForSummary store userID themeID yearMonth =
        (.error (.validation "theme ID is required to filter entries"), [])) ∧
    (themeID ≠ "" → ¬(yearMonth.data.length = 7 ∧ yearMonth.data.get? 4 = some '-') →
      GetEntriesForSummary store userID themeID yearMonth =
        (.error (.validation "invalid yearMonth format, expected YYYY-MM"), [])) ∧
    (themeID ≠ "" → yearMonth.data.length = 7 → yearMonth.data.get? 4 = some '-' →
      GetEntriesForSummary store userID themeID yearMonth =
        (.ok (runSummaryQuery store
          ⟨userGSI1PK userID, entryDateSKPfx yearMonth, themeID⟩),
         [⟨userGSI1PK userID, entryDateSKPfx yearMonth, themeID⟩])) := by
  refine ⟨fun h => ?_, fun h1 h2 => ?_, fun h1 h2 h3 => ?_⟩
  · simp [GetEntriesForSummary, h]
  · rcases Decidable.not_and_iff_or_not.mp h2 with h | h
    · simp only [GetEntriesForSummary]
      rw [if_neg (by simpa using h1), if_pos]
      simp only [Bool.or_eq_true, Bool.not_eq_eq_eq_not, Bool.not_true, beq_eq_false_iff_ne,
        ne_eq]
      exact Or.inl h
    · simp only [GetEntriesForSummary]
      rw [if_neg (by simpa using h1), if_pos]
      simp only [Bool.or_eq_true, Bool.not_eq_eq_eq_not, Bool.not_true, beq_eq_false_iff_ne,
        ne_eq]
      exact Or.inr h
  · have hlt : 4 < yearMonth.data.length := by omega
    have h4 : yearMonth.data[4] = '-' := by
      have h3' := h3
      rw [List.get?_eq_getElem?, List.getElem?_eq_getElem hlt, Option.some_inj] at h3'
      exact h3'
    simp [GetEntriesForSummary, h1, h2, h4]

/-- Witness for `C10_summary_validation`: the all-letters month string
`"abcd-ef"` (7 characters, `-` at index 4) is accepted and produces exactly
one prefix query. -/
theorem C10_summary_validation_witness :
    GetEntriesForSummary [] "u1" "th1" "abcd-ef" =
      (.ok (runSummaryQuery [] ⟨userGSI1PK "u1", entryDateSKPfx "abcd-ef", "th1"⟩),
       [⟨userGSI1PK "u1", entryDateSKPfx "abcd-ef", "th1"⟩]) :=
  (C10_summary_validation [] "u1" "th1" "abcd-ef").2.2 (by decide) (by decide)
    (by decide)

/-! ## C7: CreateEntry conditional write -/

/-- C7: `CreateEntry` with `UserID` and `EntryDate` present generates an
`EntryID` when absent, sets `CreatedAt`/`UpdatedAt`, derives the primary and
index keys, and writes under the condition that the key does not already
exist: a conditional failure is mapped to the AlreadyExists error and an
existing item is never overwritten; otherwise the fully-derived item is
stored. -/
theorem C7_create_entry_no_overwrite (freshID : String) (now : Nat)
    (e : EntryItem) (store : EntryStore)
    (hu : e.UserID ≠ "") (hd : e.EntryDate ≠ "") :
    (keyExists store (userPK e.UserID)
        (entrySK e.EntryDate (if e.EntryID = "" then freshID else e.EntryID)) = true →
      CreateEntry freshID now e store = .error .entryAlreadyExists) ∧
    (keyExists store (userPK e.UserID)
        (entrySK e.EntryDate (if e.EntryID = "" then freshID else e.EntryID)) = false →
      CreateEntry freshID now e store = .ok
        ({ e with
            EntryID := if e.EntryID = "" then freshID else e.EntryID
            CreatedAt := now
            UpdatedAt := now
            PK := userPK e.UserID
            SK := entrySK e.EntryDate (if e.EntryID = "" then freshID else e.EntryID)
            GSI1PK := userPK e.UserID
            GSI1SK := entryGSI1SK e.EntryDate e.ThemeID },
          { e with
            EntryID := if e.EntryID = "" then freshID else e.EntryID
            CreatedAt := now
            UpdatedAt := now
            PK := userPK e.UserID
            SK := entrySK e.EntryDate (if e.EntryID = "" then freshID else e.EntryID)
            GSI1PK := userPK e.UserID
            GSI1SK := entryGSI1SK e.EntryDate e.ThemeID } :: store)) := by
  refine ⟨fun hkey => ?_, fun hkey => ?_⟩ <;>
    by_cases hid : e.EntryID = "" <;>
      simp [hid] at hkey <;>
      simp [CreateEntry, putItemIfAbsent, hid, hu, hd, hkey]

/-- Witness for `C7_create_entry_no_overwrite`: creating the same entry twice
into a store already holding its derived key fails with AlreadyExists. -/
theorem C7_create_entry_no_overwrite_witness :
    CreateEntry "id9" 3
        { EntryID := "id1", ThemeID := "th1", UserID := "u1", EntryDate := "2024-01-10" }
        [{ PK := "USER#u1", SK := "ENTRY#2024-01-10#id1" }] =
      .error .entryAlreadyExists :=
  (C7_create_entry_no_overwrite "id9" 3
      { EntryID := "id1", ThemeID := "th1", UserID := "u1", EntryDate := "2024-01-10" }
      [{ PK := "USER#u1", SK := "ENTRY#2024-01-10#id1" }]
      (by decide) (by decide)).1 (by decide)

/-! ## C9: CreateEntry mutates its argument -/

/-- C9: after a successful `CreateEntry` on an entry with nil `EntryID`, the
caller's struct holds the freshly generated non-nil `EntryID`, equal
`CreatedAt` and `UpdatedAt`, and the derived keys `PK = USER#<UserID>`,
`SK = ENTRY#<EntryDate>#<EntryID>`, `GSI1PK = PK`, and
`GSI1SK = ENTRY_DATE#<EntryDate>#<ThemeID>` (the generated id of `uuid.New()`
is never `uuid.Nil`, modelled by `freshID ≠ ""`). -/
theorem C9_create_entry_mutation (freshID : String) (now : Nat)
    (e : EntryItem) (store : EntryStore)
    (hid : e.EntryID = "") (hfresh : freshID ≠ "")
    (hu : e.UserID ≠ "") (hd : e.EntryDate ≠ "")
    (hfree : keyExists store (userPK e.UserID) (entrySK e.EntryDate freshID) = false) :
    ∃ e' store', CreateEntry freshID now e store = .ok (e', store') ∧
      e'.EntryID = freshID ∧ e'.EntryID ≠ "" ∧
      e'.CreatedAt = e'.UpdatedAt ∧
      e'.PK = "USER#" ++ e.UserID ∧
      e'.SK = "ENTRY#" ++ e.EntryDate ++ "#" ++ freshID ∧
      e'.GSI1PK = e'.PK ∧
      e'.GSI1SK = "ENTRY_DATE#" ++ e.EntryDate ++ "#" ++ e.ThemeID := by
  have hmain : CreateEntry freshID now e store = .ok
      ({ e with
          EntryID := freshID
          CreatedAt := now
          UpdatedAt := now
          PK := userPK e.UserID
          SK := entrySK e.EntryDate freshID
          GSI1PK := userPK e.UserID
          GSI1SK := entryGSI1SK e.EntryDate e.ThemeID },
        { e with
          EntryID := freshID
          CreatedAt := now
          UpdatedAt := now
          PK := userPK e.UserID
          SK := entrySK e.EntryDate freshID
          GSI1PK := userPK e.UserID
          GSI1SK := entryGSI1SK e.EntryDate e.ThemeID } :: store) := by
    simp [CreateEntry, putItemIfAbsent, hid, hu, hd, hfree]
  exact ⟨_, _, hmain, rfl, hfresh, rfl, rfl, rfl, rfl, rfl⟩

/-- Witness for `C9_create_entry_mutation` at a concrete entry and empty
store. -/
theorem C9_create_entry_mutation_witness :
    ∃ e' store',
      CreateEntry "id7" 4
          { ThemeID := "th1", UserID := "u1", EntryDate := "2024-01-10" } [] =
        .ok (e', store') ∧
      e'.EntryID = "id7" ∧ e'.EntryID ≠ "" ∧
      e'.CreatedAt = e'.UpdatedAt ∧
      e'.PK = "USER#" ++ "u1" ∧
      e'.SK = "ENTRY#" ++ "2024-01-10" ++ "#" ++ "id7" ∧
      e'.GSI1PK = e'.PK ∧
      e'.GSI1SK = "ENTRY_DATE#" ++ "2024-01-10" ++ "#" ++ "th1" :=
  C9_create_entry_mutation "id7" 4
    { ThemeID := "th1", UserID := "u1", EntryDate := "2024-01-10" } []
    (by decide) (by decide) (by decide) (by decide) (by decide)

/-! ## C8: same-date update is an in-place conditional update -/

/-- C8: when the stored entry's `EntryDate` equals the new one, `UpdateEntry`
performs the single in-place conditional update `updateItem` at the key
derived from the original date; that update rewrites only `Data`, the
redundant `EntryDate` attribute, `UpdatedAt` and the index-sort attribute
`GSI1SK`, keeps every other attribute of the item (including `CreatedAt`,
`ThemeID` and the primary key), leaves all other items untouched, and fails
NotFound when the existence condition fails. -/
theorem C8_same_date_update (now : Nat) (e : EntryItem) (store : EntryStore)
    (existing : EntryItem)
    (hv : ¬(e.EntryID = "" ∨ e.UserID = "" ∨ e.EntryDate = ""))
    (hget : GetEntryByID store e.UserID e.EntryID = .ok existing)
    (hsame : existing.EntryDate = e.EntryDate) :
    UpdateEntry now e store = updateItem now e existing.EntryDate store ∧
    (∀ old,
      lookupKey store (userPK e.UserID) (entrySK existing.EntryDate e.EntryID) =
          some old →
      ∃ upd,
        updateItem now e existing.EntryDate store = .ok (store.map fun it =>
          if it.PK == userPK e.UserID &&
              it.SK == entrySK existing.EntryDate e.EntryID then upd else it) ∧
        upd.Data = e.Data ∧ upd.EntryDate = e.EntryDate ∧ upd.UpdatedAt = now ∧
        upd.GSI1SK = entryGSI1SK e.EntryDate e.ThemeID ∧
        upd.PK = old.PK ∧ upd.SK = old.SK ∧ upd.EntryID = old.EntryID ∧
        upd.ThemeID = old.ThemeID ∧ upd.UserID = old.UserID ∧
        upd.CreatedAt = old.CreatedAt ∧ upd.GSI1PK = old.GSI1PK) ∧
    (lookupKey store (userPK e.UserID) (entrySK existing.EntryDate e.EntryID) =
        none →
      updateItem now e existing.EntryDate store = .error .entryNotFound) := by
  refine ⟨?_, fun old hold => ?_, fun hnone => ?_⟩
  · push_neg at hv
    obtain ⟨h1, h2, h3⟩ := hv
    simp [UpdateEntry, h1, h2, h3, hget, hsame]
  · exact ⟨{ old with
        Data := e.Data
        UpdatedAt := now
        GSI1SK := entryGSI1SK e.EntryDate e.ThemeID
        EntryDate := e.EntryDate },
      by simp [updateItem, hold], rfl, rfl, rfl, rfl, rfl, rfl, rfl, rfl, rfl,
      rfl, rfl⟩
  · simp [updateItem, hnone]

/-- Witness for `C8_same_date_update`: a one-item store updated in place. -/
theorem C8_same_date_update_witness :
    UpdateEntry 9
        { EntryID := "id1", ThemeID := "th1", UserID := "u1",
          EntryDate := "2024-01-10", Data := [("amount", "5")] }
        [{ PK := "USER#u1", SK := "ENTRY#2024-01-10#id1", EntryID := "id1",
            ThemeID := "th1", UserID := "u1", EntryDate := "2024-01-10",
            CreatedAt := 2, UpdatedAt := 2, GSI1PK := "USER#u1",
            GSI1SK := "ENTRY_DATE#2024-01-10#th1" }] =
      updateItem 9
        { EntryID := "id1", ThemeID := "th1", UserID := "u1",
          EntryDate := "2024-01-10", Data := [("amount", "5")] }
        "2024-01-10"
        [{ PK := "USER#u1", SK := "ENTRY#2024-01-10#id1", EntryID := "id1",
            ThemeID := "th1", UserID := "u1", EntryDate := "2024-01-10",
            CreatedAt := 2, UpdatedAt := 2, GSI1PK := "USER#u1",
            GSI1SK := "ENTRY_DATE#2024-01-10#th1" }] :=
  (C8_same_date_update 9
      { EntryID := "id1", ThemeID := "th1", UserID := "u1",
        EntryDate := "2024-01-10", Data := [("amount", "5")] }
      [{ PK := "USER#u1", SK := "ENTRY#2024-01-10#id1", EntryID := "id1",
          ThemeID := "th1", UserID := "u1", EntryDate := "2024-01-10",
          CreatedAt := 2, UpdatedAt := 2, GSI1PK := "USER#u1",
          GSI1SK := "ENTRY_DATE#2024-01-10#th1" }]
      { PK := "USER#u1", SK := "ENTRY#2024-01-10#id1", EntryID := "id1",
        ThemeID := "th1", UserID := "u1", EntryDate := "2024-01-10",
        CreatedAt := 2, UpdatedAt := 2, GSI1PK := "USER#u1",
        GSI1SK := "ENTRY_DATE#2024-01-10#th1" }
      (by decide) (by rfl) (by decide)).1

/-! ## C6: default themes cannot be deleted -/

/-- C6: for every caller and every stored theme whose `IsDefault` flag is
true, `DeleteTheme` reads and authorizes via `GetThemeByID`, returns the
distinct `cannot delete default theme` error, issues no `DeleteItem`, and
leaves the store unchanged. -/
theorem C6_delete_default_theme (store : ThemeStore) (userID themeID : String)
    (t : ThemeItem)
    (hu : userID ≠ "") (ht : themeID ≠ "")
    (hlook : themeLookup store ("THEME#" ++ themeID) "METADATA" = some t)
    (hdef : t.IsDefault = true) :
    DeleteTheme store userID themeID = (.error .cannotDeleteDefaultLocal, store, []) ∧
    GoError.cannotDeleteDefaultLocal ≠ GoError.domainForbidden ∧
    GoError.cannotDeleteDefaultLocal ≠ GoError.domainNotFound := by
  refine ⟨?_, by decide, by decide⟩
  simp [DeleteTheme, GetThemeByID, hu, ht, hlook, hdef]

/-- Witness for `C6_delete_default_theme` on a one-theme store. -/
theorem C6_delete_default_theme_witness :
    DeleteTheme
        [{ PK := "THEME#t1", SK := "METADATA", ThemeID := "t1", IsDefault := true }]
        "u1" "t1" =
      (.error .cannotDeleteDefaultLocal,
        [{ PK := "THEME#t1", SK := "METADATA", ThemeID := "t1", IsDefault := true }],
        []) :=
  (C6_delete_default_theme
      [{ PK := "THEME#t1", SK := "METADATA", ThemeID := "t1", IsDefault := true }]
      "u1" "t1"
      { PK := "THEME#t1", SK := "METADATA", ThemeID := "t1", IsDefault := true }
      (by decide) (by decide) (by decide) (by decide)).1

/-! ## C2: theme creation, dual write and compensation -/

/-- C2 (counterexample): the legacy `repository`-package `CreateTheme`
(internal/repository/theme_repository.go) does **not** attempt a compensating
delete: with the metadata put succeeding and the link put failing, it returns
the link error after issuing only the two puts — no `DeleteItem` appears in
its call sequence. -/
theorem C2_counterexample :
    LegacyCreateTheme ⟨.ok, .fail, .ok⟩ "tX"
        { ThemeID := "t1", OwnerUserID := some "u1" } =
      (.error (.wrapped "failed to create user-theme link" .storeErr),
       [.putMeta "THEME#t1" "METADATA", .putLink "USER#u1" "THEME#t1"]) := by
  rfl

/-- C2 (amended, for the dynamodbrepo `CreateTheme`): if the metadata write
fails the operation aborts with the error and no ownership-link write is
issued; if the metadata write succeeds and the link write fails, a
compensating delete of the just-written metadata item is attempted before the
link error is returned; and the outcome of that compensating delete (which is
only logged) never changes what the call returns. -/
theorem C2_create_theme_compensation (env : CreateThemeEnv) (freshID : String)
    (th : ThemeItem)
    (hown : ¬(th.OwnerUserID = none ∨ th.OwnerUserID = some "")) :
    (env.metaPut = .fail →
      CreateTheme env freshID th =
        (.error (.wrapped "failed to create theme metadata" .storeErr),
         [.putMeta (themePK (if th.ThemeID = "" then freshID else th.ThemeID))
            themeMetadataSK])) ∧
    (env.metaPut = .ok → env.linkPut = .fail →
      CreateTheme env freshID th =
        (.error (.wrapped "failed to create user-theme link" .storeErr),
         [.putMeta (themePK (if th.ThemeID = "" then freshID else th.ThemeID))
            themeMetadataSK,
          .putLink (userPK (th.OwnerUserID.getD ""))
            (userThemeLinkSK (if th.ThemeID = "" then freshID else th.ThemeID)),
          .deleteMeta (themePK (if th.ThemeID = "" then freshID else th.ThemeID))
            themeMetadataSK])) ∧
    (∀ x y, CreateTheme { env with rollbackDelete := x } freshID th =
            CreateTheme { env with rollbackDelete := y } freshID th) := by
  push_neg at hown
  obtain ⟨h1, h2⟩ := hown
  refine ⟨fun hm => ?_, fun hm hl => ?_, fun x y => ?_⟩
  · by_cases hid : th.ThemeID = "" <;> simp [CreateTheme, hid, h1, h2, hm]
  · by_cases hid : th.ThemeID = "" <;> simp [CreateTheme, hid, h1, h2, hm, hl]
  · by_cases hid : th.ThemeID = "" <;>
      cases hmp : env.metaPut <;> cases hlp : env.linkPut <;>
        simp [CreateTheme, hid, h1, h2, hmp, hlp]

/-- Witness for `C2_create_theme_compensation`: metadata ok, link put fails;
the call sequence ends with the compensating metadata delete. -/
theorem C2_create_theme_compensation_witness :
    CreateTheme ⟨.ok, .fail, .fail⟩ "tX"
        { ThemeID := "t1", OwnerUserID := some "u1" } =
      (.error (.wrapped "failed to create user-theme link" .storeErr),
       [.putMeta (themePK (if ("t1" : String) = "" then "tX" else "t1"))
          themeMetadataSK,
        .putLink (userPK ((some "u1").getD ""))
          (userThemeLinkSK (if ("t1" : String) = "" then "tX" else "t1")),
        .deleteMeta (themePK (if ("t1" : String) = "" then "tX" else "t1"))
          themeMetadataSK]) :=
  (C2_create_theme_compensation ⟨.ok, .fail, .fail⟩ "tX"
      { ThemeID := "t1", OwnerUserID := some "u1" }
      (by decide)).2.1 rfl rfl

/-! ## C3: UpdateTheme's follow-up-read error classification -/

/-- C3 (code bug): on a rejected conditional write, `UpdateTheme` performs
the follow-up read, but classifies its result with
`errors.Is(getErr, domain.ErrNotFound)` / `errors.Is(getErr,
domain.ErrForbidden)`, while `GetThemeByID` returns freshly allocated
`errors.New("theme not found")` / `errors.New("forbidden")` values; those are
never identical to the `domain` sentinels, so both the theme-missing and the
foreign-owner cases fall through to the same generic wrapped error instead of
NotFound/Forbidden.  (The package's own tests assert
`assert.ErrorIs(t, err, domain.ErrNotFound)` for the missing-theme read.) -/
theorem C3_update_theme_error_classification :
    UpdateTheme 7 { ThemeID := "t1", OwnerUserID := some "u1" } [] =
      .error (.wrapped
        "failed to update theme metadata (and failed to check existence/ownership)"
        .condCheckFailedExc) ∧
    UpdateTheme 7 { ThemeID := "t1", OwnerUserID := some "u1" }
        [{ PK := "THEME#t1", SK := "METADATA", ThemeID := "t1",
            OwnerUserID := some "u2" }] =
      .error (.wrapped
        "failed to update theme metadata (and failed to check existence/ownership)"
        .condCheckFailedExc) ∧
    errorsIs .themeNotFoundLocal .domainNotFound = false ∧
    errorsIs .forbiddenLocal .domainForbidden = false ∧
    (GoError.wrapped
        "failed to update theme metadata (and failed to check existence/ownership)"
        .condCheckFailedExc ≠ GoError.domainNotFound) ∧
    (GoError.wrapped
        "failed to update theme metadata (and failed to check existence/ownership)"
        .condCheckFailedExc ≠ GoError.domainForbidden) := by
  refine ⟨by rfl, by rfl, by rfl, by rfl, by decide, by decide⟩

/-! ## C1: cross-date update via delete+put transaction -/

/-- C1 (counterexample): `deleteAndPutItemTransaction` returns the *same*
single combined error whether the delete's condition failed (old record
missing — empty store) or the put's condition failed (target key occupied),
and that error is not the file's NotFound error: the claimed per-item
NotFound/Conflict classification does not happen. -/
theorem C1_counterexample :
    deleteAndPutItemTransaction 5
        { EntryID := "id1", ThemeID := "th1", UserID := "u1",
          EntryDate := "2024-02-01" } "2024-01-10" [] =
      .error .updateCondCheckFailed ∧
    deleteAndPutItemTransaction 5
        { EntryID := "id1", ThemeID := "th1", UserID := "u1",
          EntryDate := "2024-02-01" } "2024-01-10"
        [{ PK := "USER#u1", SK := "ENTRY#2024-01-10#id1" },
         { PK := "USER#u1", SK := "ENTRY#2024-02-01#id1" }] =
      .error .updateCondCheckFailed ∧
    EntryErr.updateCondCheckFailed ≠ EntryErr.entryNotFound := by
  refine ⟨by rfl, by rfl, by decide⟩

/-- C1 (amended): on a date change the repository submits one atomic
transaction containing exactly the conditioned delete of the old key
(condition: exists) and the conditioned put of the new key (condition:
does-not-exist), so that both apply (old item removed, new item written) when
both conditions hold and nothing is applied otherwise; but when the
transaction is cancelled by a failed condition the operation returns one
combined condition-check error — it does not distinguish NotFound (delete
condition failed) from Conflict (put condition failed). -/
theorem C1_date_change_transaction (now : Nat) (e : EntryItem)
    (oldDate : String) (store : EntryStore) :
    (keyExists store (userPK e.UserID) (entrySK oldDate e.EntryID) = true →
      keyExists store (userPK e.UserID) (entrySK e.EntryDate e.EntryID) = false →
      deleteAndPutItemTransaction now e oldDate store = .ok
        ({ e with
            UpdatedAt := now
            CreatedAt := if e.CreatedAt = 0 then now else e.CreatedAt
            PK := userPK e.UserID
            SK := entrySK e.EntryDate e.EntryID
            GSI1PK := userPK e.UserID
            GSI1SK := entryGSI1SK e.EntryDate e.ThemeID } ::
          eraseKey (eraseKey store (userPK e.UserID) (entrySK oldDate e.EntryID))
            (userPK e.UserID) (entrySK e.EntryDate e.EntryID))) ∧
    (keyExists store (userPK e.UserID) (entrySK oldDate e.EntryID) = false ∨
        keyExists store (userPK e.UserID) (entrySK e.EntryDate e.EntryID) = true →
      deleteAndPutItemTransaction now e oldDate store =
        .error .updateCondCheckFailed) := by
  constructor
  · intro hold hnew
    by_cases hc : e.CreatedAt = 0 <;>
      simp [deleteAndPutItemTransaction, transactWriteItems, txCondOK,
        applyTxItem, hc, hold, hnew]
  · intro hfail
    by_cases hc : e.CreatedAt = 0 <;>
      rcases hfail with hold | hnew
    · by_cases hnew : keyExists store (userPK e.UserID)
          (entrySK e.EntryDate e.EntryID) = true <;>
        simp_all [deleteAndPutItemTransaction, transactWriteItems, txCondOK, hc]
    · by_cases hold : keyExists store (userPK e.UserID)
          (entrySK oldDate e.EntryID) = true <;>
        simp_all [deleteAndPutItemTransaction, transactWriteItems, txCondOK, hc]
    · by_cases hnew : keyExists store (userPK e.UserID)
          (entrySK e.EntryDate e.EntryID) = true <;>
        simp_all [deleteAndPutItemTransaction, transactWriteItems, txCondOK, hc]
    · by_cases hold : keyExists store (userPK e.UserID)
          (entrySK oldDate e.EntryID) = true <;>
        simp_all [deleteAndPutItemTransaction, transactWriteItems, txCondOK, hc]

/-- Witness for `C1_date_change_transaction`: a store holding only the old
item; both conditions hold and the transaction migrates the item to the new
date's key. -/
theorem C1_date_change_transaction_witness :
    deleteAndPutItemTransaction 5
        { EntryID := "id1", ThemeID := "th1", UserID := "u1",
          EntryDate := "2024-02-01", CreatedAt := 2 } "2024-01-10"
        [{ PK := "USER#u1", SK := "ENTRY#2024-01-10#id1", EntryID := "id1",
            ThemeID := "th1", UserID := "u1", EntryDate := "2024-01-10" }] =
      .ok
        ({ (⟨"", "", "id1", "th1", "u1", "2024-02-01", [], 2, 0, "", ""⟩ :
              EntryItem) with
            UpdatedAt := 5
            CreatedAt := if (2 : Nat) = 0 then 5 else 2
            PK := userPK "u1"
            SK := entrySK "2024-02-01" "id1"
            GSI1PK := userPK "u1"
            GSI1SK := entryGSI1SK "2024-02-01" "th1" } ::
          eraseKey (eraseKey
              [{ PK := "USER#u1", SK := "ENTRY#2024-01-10#id1", EntryID := "id1",
                  ThemeID := "th1", UserID := "u1", EntryDate := "2024-01-10" }]
              (userPK "u1") (entrySK "2024-01-10" "id1"))
            (userPK "u1") (entrySK "2024-02-01" "id1")) :=
  (C1_date_change_transaction 5
      { EntryID := "id1", ThemeID := "th1", UserID := "u1",
        EntryDate := "2024-02-01", CreatedAt := 2 } "2024-01-10"
      [{ PK := "USER#u1", SK := "ENTRY#2024-01-10#id1", EntryID := "id1",
          ThemeID := "th1", UserID := "u1", EntryDate := "2024-01-10" }]).1
    (by rfl) (by rfl)

/-! ## C4: date-range listing over GSI1 -/

theorem keyLe_hash_sentinel (r : List Char) : keyLe ('#' :: r) ['\uFFFF'] = true := by
  have h : '#' < '\uFFFF' := by decide
  simp [keyLe, h]

/-- The lower bound `ENTRY_DATE#<start>` is `≤` an index key
`ENTRY_DATE#<d>#<tid>` exactly when `start ≤ d`, for equal-length dates. -/
theorem keyLe_lower_bound (s d tid : String) (h : s.data.length = d.data.length) :
    keyLe (entryDateSKPfx s).data (entryGSI1SK d tid).data = keyLe s.data d.data := by
  have e1 : (entryDateSKPfx s).data = ("ENTRY_DATE#" : String).data ++ s.data := rfl
  have e2 : (entryGSI1SK d tid).data =
      ("ENTRY_DATE#" : String).data ++ (d.data ++ ('#' :: tid.data)) := by
    show ((("ENTRY_DATE#" ++ d) ++ "#") ++ tid).data = _
    simp [strData_append, List.append_assoc]
  rw [e1, e2, keyLe_append_left, keyLe_append_right _ _ _ h]

/-- An index key `ENTRY_DATE#<d>#<tid>` is `≤` the upper bound
`ENTRY_DATE#<end>` followed by the high sentinel U+FFFF exactly when
`d ≤ end`, for equal-length dates: the sentinel makes the whole end date
inclusive. -/
theorem keyLe_upper_bound (d tid e : String) (h : d.data.length = e.data.length) :
    keyLe (entryGSI1SK d tid).data ((entryDateSKPfx e ++ "\uFFFF")).data =
      keyLe d.data e.data := by
  have e1 : (entryGSI1SK d tid).data =
      ("ENTRY_DATE#" : String).data ++ (d.data ++ ('#' :: tid.data)) := by
    show ((("ENTRY_DATE#" ++ d) ++ "#") ++ tid).data = _
    simp [strData_append, List.append_assoc]
  have e2 : ((entryDateSKPfx e ++ "\uFFFF")).data =
      ("ENTRY_DATE#" : String).data ++ (e.data ++ ['\uFFFF']) := by
    show (("ENTRY_DATE#" ++ e) ++ "\uFFFF").data = _
    simp [strData_append, List.append_assoc]
  rw [e1, e2, keyLe_append_left,
    keyLe_append_snoc _ _ _ _ h (keyLe_hash_sentinel tid.data)]

/-- C4: with well-formed index attributes and 10-character dates,
`ListEntriesByDateRange` issues the single GSI1 range query between
`ENTRY_DATE#<start>` and `ENTRY_DATE#<end>` plus the U+FFFF sentinel with a server-side
`ThemeID` equality filter, and returns exactly the caller's entries of that
theme whose `EntryDate` lies in `[startDate, endDate]`; it errors when
`startDate > endDate` or the theme id is nil. -/
theorem C4_list_entries_by_date_range (store : EntryStore)
    (userID startDate endDate themeID : String)
    (hwf : ∀ it ∈ store, it.GSI1PK = userGSI1PK it.UserID ∧
        it.GSI1SK = entryGSI1SK it.EntryDate it.ThemeID ∧
        it.EntryDate.data.length = 10)
    (hs : startDate.data.length = 10) (he : endDate.data.length = 10) :
    (keyLe startDate.data endDate.data = true → themeID ≠ "" →
      ListEntriesByDateRange store userID startDate endDate themeID =
        .ok (store.filter fun it =>
          it.UserID == userID && it.ThemeID == themeID &&
            keyLe startDate.data it.EntryDate.data &&
            keyLe it.EntryDate.data endDate.data)) ∧
    (keyLe startDate.data endDate.data = false →
      ListEntriesByDateRange store userID startDate endDate themeID =
        .error (.validation "start date cannot be after end date")) ∧
    (keyLe startDate.data endDate.data = true → themeID = "" →
      ListEntriesByDateRange store userID startDate endDate themeID =
        .error (.validation "theme ID is required to filter entries")) := by
  refine ⟨fun hle ht => ?_, fun hgt => ?_, fun hle ht => ?_⟩
  · simp only [ListEntriesByDateRange, hle, Bool.not_true, Bool.false_eq_true,
      if_false]
    rw [if_neg (by simpa using ht)]
    congr 1
    unfold queryRangeGSI1
    apply List.filter_congr
    intro it hit
    obtain ⟨h1, h2, h3⟩ := hwf it hit
    rw [h1, h2, userGSI1PK_beq,
      keyLe_lower_bound startDate it.EntryDate it.ThemeID (by rw [hs, h3]),
      keyLe_upper_bound it.EntryDate it.ThemeID endDate (by rw [he, h3])]
    simp [Bool.and_assoc, Bool.and_comm, Bool.and_left_comm]
  · simp [ListEntriesByDateRange, hgt]
  · simp [ListEntriesByDateRange, hle, ht]

/-- Witness for `C4_list_entries_by_date_range`, realising the spec scenario:
entries at d1 < d2 < d3; the query over [d1, d2] returns exactly the d1 and
d2 entries of the requested theme and excludes d3. -/
theorem C4_list_entries_by_date_range_witness :
    ListEntriesByDateRange
        [{ PK := "USER#u1", SK := "ENTRY#2024-01-01#e1", EntryID := "e1",
            ThemeID := "th1", UserID := "u1", EntryDate := "2024-01-01",
            GSI1PK := "USER#u1", GSI1SK := "ENTRY_DATE#2024-01-01#th1" },
         { PK := "USER#u1", SK := "ENTRY#2024-01-02#e2", EntryID := "e2",
            ThemeID := "th1", UserID := "u1", EntryDate := "2024-01-02",
            GSI1PK := "USER#u1", GSI1SK := "ENTRY_DATE#2024-01-02#th1" },
         { PK := "USER#u1", SK := "ENTRY#2024-01-03#e3", EntryID := "e3",
            ThemeID := "th1", UserID := "u1", EntryDate := "2024-01-03",
            GSI1PK := "USER#u1", GSI1SK := "ENTRY_DATE#2024-01-03#th1" }]
        "u1" "2024-01-01" "2024-01-02" "th1" =
      .ok [{ PK := "USER#u1", SK := "ENTRY#2024-01-01#e1", EntryID := "e1",
              ThemeID := "th1", UserID := "u1", EntryDate := "2024-01-01",
              GSI1PK := "USER#u1", GSI1SK := "ENTRY_DATE#2024-01-01#th1" },
            { PK := "USER#u1", SK := "ENTRY#2024-01-02#e2", EntryID := "e2",
              ThemeID := "th1", UserID := "u1", EntryDate := "2024-01-02",
              GSI1PK := "USER#u1", GSI1SK := "ENTRY_DATE#2024-01-02#th1" }] := by
  have h := (C4_list_entries_by_date_range
      [{ PK := "USER#u1", SK := "ENTRY#2024-01-01#e1", EntryID := "e1",
          ThemeID := "th1", UserID := "u1", EntryDate := "2024-01-01",
          GSI1PK := "USER#u1", GSI1SK := "ENTRY_DATE#2024-01-01#th1" },
       { PK := "USER#u1", SK := "ENTRY#2024-01-02#e2", EntryID := "e2",
          ThemeID := "th1", UserID := "u1", EntryDate := "2024-01-02",
          GSI1PK := "USER#u1", GSI1SK := "ENTRY_DATE#2024-01-02#th1" },
       { PK := "USER#u1", SK := "ENTRY#2024-01-03#e3", EntryID := "e3",
          ThemeID := "th1", UserID := "u1", EntryDate := "2024-01-03",
          GSI1PK := "USER#u1", GSI1SK := "ENTRY_DATE#2024-01-03#th1" }]
      "u1" "2024-01-01" "2024-01-02" "th1"
      (by decide) (by decide) (by decide)).1 (by decide) (by decide)
  rw [h]
  rfl

end AxiCalendar
